import Mathlib

/-
  Verification development for the GTDTogether repository
  (src/main.py: OmniDb / OmniClient / OmniDelegateManager / OmniDelegateContext /
   OmniSharer; src/gtdt.py: GTDTDb).

  The Python code is shallowly embedded: XML documents become lists of elements,
  the on-disk delta-archive directory becomes a list of parsed filenames, Python
  exceptions become an `Except PyErr` monad, and the wall clock / random id
  generator become explicit parameters.
-/

namespace GTDT

/-- Python exceptions that the embedded code can raise.  The last four are the
    exception classes declared by the repository itself (`OmniDb.NotReady`,
    `OmniDb.MultipleElementsFound`, `OmniDb.ElementNotFound`,
    `OmniClient.NewDB`); the others are builtin Python / sqlite exceptions. -/
inductive PyErr where
  | attributeError
  | valueError
  | indexError
  | parseError
  | typeError
  | operationalError
  | diverges
  | notReady
  | multipleElementsFound
  | elementNotFound
  | newDB
deriving Repr, DecidableEq

/-- An lxml/objectify element as the OmniFocus code uses it: a top-level
    `<context>` or `<task>` child of the `<omnifocus>` root.  `objId` models
    Python object identity (every element produced by a distinct
    `objectify.parse` is a fresh object); `typ` is the tag name; `id` the `@id`
    attribute; `op` the optional `@op` attribute; `content` stands for the
    remaining payload (name / note / rank / added ...); `ctxRef` is the `idref`
    of the nested `<context>` reference. -/
structure Elem where
  objId : Nat
  typ : String
  id : String
  op : Option String
  content : String
  ctxRef : String
deriving Repr, DecidableEq

/-- The children of one `<omnifocus>` root, in document order. -/
abbrev XmlDoc := List Elem

/-- `el.attrib` comparison used by `_merge_delta`'s xpath
    `/of:omnifocus/of:<typ>[@id='<id>']`. -/
def matchesId (typ id : String) (e : Elem) : Bool :=
  e.typ == typ && e.id == id

/-- `del(el.attrib['op'])`. -/
def stripOp (e : Elem) : Elem := { e with op := none }

/-- `base.remove(orig)` for the first element matching the xpath lookup
    (`[0]` of the result list); identity on the document when the lookup
    raises `IndexError` (the `except IndexError: pass` branch). -/
def removeFirstById (typ id : String) : XmlDoc → XmlDoc
  | [] => []
  | e :: rest =>
      if matchesId typ id e then rest else e :: removeFirstById typ id rest

/-- `base.remove(el)` by Python object identity, as lxml implements it:
    removing an element that is not a child of `base` raises `ValueError`. -/
def lxmlRemove (base : XmlDoc) (el : Elem) : Except PyErr XmlDoc :=
  if base.any (fun e => e.objId == el.objId) then
    .ok (base.filter (fun e => !(e.objId == el.objId)))
  else
    .error .valueError

/-- One iteration of the element loop in `OmniDb._merge_delta`. -/
def mergeOne (base : XmlDoc) (el : Elem) : Except PyErr XmlDoc :=
  match el.op with
  | some "update" =>
      -- replace the element of matching id (if any), strip `op`, append
      .ok (removeFirstById el.typ el.id base ++ [stripOp el])
  | none =>
      -- no operation implies a new element: unconditional append
      .ok (base ++ [el])
  | some "delete" =>
      -- the source removes the *delta's own* element object from `base`
      lxmlRemove base el
  | some _ =>
      -- an unrecognised op matches no branch: the element is skipped
      .ok base

def mergeElems (base : XmlDoc) : List Elem → Except PyErr XmlDoc
  | [] => .ok base
  | e :: rest => do mergeElems (← mergeOne base e) rest

/-- `OmniDb._merge_delta(delta, base)`: the xpath loop visits the `context`
    children first, then the `task` children; elements of any other tag are
    never visited. -/
def mergeDelta (delta : XmlDoc) (base : XmlDoc) : Except PyErr XmlDoc :=
  mergeElems base
    (delta.filter (fun e => e.typ == "context") ++
     delta.filter (fun e => e.typ == "task"))

/-- Number of elements of a document matching one `(typ, id)` pair. -/
def countById (typ id : String) (d : XmlDoc) : Nat :=
  (d.filter (matchesId typ id)).length

/-- One `.zip` archive of a user's `OmniFocus.ofocus` directory, identified by
    its filename `<stamp>=<eqField>+<plusField>.zip` (genesis archives carry
    the stamp `"00000000000000"`).  `content` is the parsed `contents.xml`
    document; `none` models an unreadable file or a malformed archive (where
    `ZipFile` / `objectify.parse` raise). -/
structure DFile where
  stamp : String
  eqField : String
  plusField : String
  content : Option XmlDoc
deriving Repr, DecidableEq

/-- The filename string `'%s=%s+%s.zip'` the source builds and globs over. -/
def dfileName (f : DFile) : String :=
  f.stamp ++ "=" ++ f.eqField ++ "+" ++ f.plusField ++ ".zip"

/-- `OmniClient.head_id`: `glob('<path>/00000000000000=*.zip')[0]`, then
    `fn.split('/')[-1].split('=')[1].split('+')[0]`.  Indexing an empty glob
    result raises `IndexError`. -/
def headId (files : List DFile) : Except PyErr String :=
  match files.find? (fun f => f.stamp == "00000000000000") with
  | none => .error .indexError
  | some f => .ok f.eqField

/-- What the `while matches:` loop of `OmniDb._load` accumulates. -/
structure LoadRaw where
  mainRecs : List XmlDoc
  deltaRecs : List XmlDoc
  tail : String
deriving Repr, DecidableEq

/-- The `while matches:` loop of `OmniDb._load`: glob `*=<tail>+*.zip`, take
    the first match, parse it onto the current stack, advance the tail to the
    filename's `+` field, and switch to the `deltas` stack once the tail
    equals `OmniClient.tail_id` (the sync cursor; `none` when no `.client`
    file exists — a string never equals Python `None`).  `clientTail` and the
    file list are fixed for the whole walk.  The Python loop does not
    terminate on a cyclic chain; exhausting `fuel` models that divergence. -/
def loadChain (files : List DFile) (clientTail : Option String) :
    Nat → String → List XmlDoc → List XmlDoc → Bool → Except PyErr LoadRaw
  | 0, _, _, _, _ => .error .diverges
  | fuel + 1, tailId, mainAcc, deltaAcc, inDelta =>
      match files.find? (fun f => f.eqField == tailId) with
      | none => .ok ⟨mainAcc, deltaAcc, tailId⟩
      | some f =>
          match f.content with
          | none => .error .parseError
          | some doc =>
              let mainAcc2 := if inDelta then mainAcc else mainAcc ++ [doc]
              let deltaAcc2 := if inDelta then deltaAcc ++ [doc] else deltaAcc
              let newTail := f.plusField
              let inDelta2 := inDelta || (some newTail == clientTail)
              loadChain files clientTail fuel newTail mainAcc2 deltaAcc2 inDelta2

/-- The state `OmniDb._load` leaves behind. -/
structure LoadResult where
  mainRecs : List XmlDoc
  deltaRecs : List XmlDoc
  root : XmlDoc
  delta : XmlDoc
  tail : String
deriving Repr, DecidableEq

/-- `for tree in docs: self._merge_delta(tree, base)`. -/
def mergeAll (base : XmlDoc) : List XmlDoc → Except PyErr XmlDoc
  | [] => .ok base
  | d :: rest => do mergeAll (← mergeDelta d base) rest

/-- One iteration of the element loop in `OmniDb._merge_delta` when the base
    is the overlay document `self._delta`.  That document's root element was
    created by `create_root()` via `objectify.Element('omnifocus')` and is in
    no namespace (`root.set('xmlns', ...)` only adds a literal attribute, it
    cannot change the element's tag namespace), so the update branch's
    namespace-qualified absolute lookup `/of:omnifocus/of:<typ>[@id=...]`
    over it never finds a match: an Update takes the `except IndexError`
    path, stripping the marker and appending unconditionally.  Insert and
    Delete behave as over a namespaced base (append / identity-based
    `base.remove(el)`). -/
def mergeOneIntoDelta (base : XmlDoc) (el : Elem) : Except PyErr XmlDoc :=
  match el.op with
  | some "update" => .ok (base ++ [stripOp el])
  | none => .ok (base ++ [el])
  | some "delete" => lxmlRemove base el
  | some _ => .ok base

def mergeElemsIntoDelta (base : XmlDoc) : List Elem → Except PyErr XmlDoc
  | [] => .ok base
  | e :: rest => do mergeElemsIntoDelta (← mergeOneIntoDelta base e) rest

/-- `OmniDb._merge_delta(tree, self._delta)` for a parsed (namespaced)
    record `delta`: the iteration xpath over `delta` finds its context
    children then its task children as usual; only the base-side id lookup
    differs (see `mergeOneIntoDelta`). -/
def mergeDeltaIntoDelta (delta : XmlDoc) (base : XmlDoc) :
    Except PyErr XmlDoc :=
  mergeElemsIntoDelta base
    (delta.filter (fun e => e.typ == "context") ++
     delta.filter (fun e => e.typ == "task"))

/-- `for tree in deltas: self._merge_delta(tree, self._delta)`. -/
def mergeAllIntoDelta (base : XmlDoc) : List XmlDoc → Except PyErr XmlDoc
  | [] => .ok base
  | d :: rest => do mergeAllIntoDelta (← mergeDeltaIntoDelta d base) rest

/-- `OmniDb._load`: start from `OmniClient.head_id`, walk the filename chain,
    take `main.pop(0)` as the root tree (IndexError when `main` is empty),
    fold the remaining main trees into it, and fold the delta trees into a
    fresh `create_root()` (an empty document with an unnamespaced root).
    The final `self._merge_delta(self.delta)` "for continuity" is a no-op:
    the overlay document's root element is in no namespace, so the iteration
    xpath `/of:omnifocus/of:context` / `/of:omnifocus/of:task` over it
    matches nothing and no element reaches the base. -/
def loadFull (files : List DFile) (clientTail : Option String) :
    Except PyErr LoadResult := do
  let h ← headId files
  let raw ← loadChain files clientTail (files.length + 1) h [] [] false
  match raw.mainRecs with
  | [] => .error .indexError
  | m0 :: rest => do
      let root ← mergeAll m0 rest
      let delta ← mergeAllIntoDelta [] raw.deltaRecs
      .ok ⟨raw.mainRecs, raw.deltaRecs, root, delta, raw.tail⟩

/-- The fields of one `OmniDb` instance that the transaction protocol touches,
    together with the directory (`files`) and sync cursor (`clientTail`) it is
    bound to.  `changes` is `self._changes`, `root` is `self._main`'s root,
    `delta` is `self._delta`, `tail` is `self._tail_id`. -/
structure OmniDbState where
  files : List DFile
  clientTail : Option String
  changes : List Elem
  root : XmlDoc
  delta : XmlDoc
  tail : String
deriving Repr, DecidableEq

/-- `OmniDb.reload` = `OmniDb._load`: rebuilds `root`, `delta` and `tail` from
    the directory.  `self._changes` is not touched by `_load`. -/
def reload (s : OmniDbState) : Except PyErr OmniDbState := do
  let r ← loadFull s.files s.clientTail
  .ok { s with root := r.root, delta := r.delta, tail := r.tail }

/-- `OmniDb.insert`: append the element to `self.root` and to
    `self._changes`. -/
def insertOp (s : OmniDbState) (el : Elem) : OmniDbState :=
  { s with root := s.root ++ [el], changes := s.changes ++ [el] }

/-- `OmniDb._generate_delta`, with the wall clock (`stamp`) and the id drawn
    by `_generate_id` (`freshId`) as explicit parameters: write a new archive
    named `<stamp>=<tail>+<freshId>.zip` holding exactly the staged changes in
    staging order, write a `.client` file whose `tailIdentifiers` is
    `[freshId]`, and advance `self._tail_id`.  Returns the new state and the
    archive written. -/
def generateDelta (s : OmniDbState) (stamp freshId : String) :
    OmniDbState × DFile :=
  let newFile : DFile := ⟨stamp, s.tail, freshId, some s.changes⟩
  ({ s with files := s.files ++ [newFile],
            changes := [],
            clientTail := some freshId,
            tail := freshId },
   newFile)

/-- `OmniDb.commit`: `_generate_delta` then `reload`. -/
def commitOp (s : OmniDbState) (stamp freshId : String) :
    Except PyErr OmniDbState :=
  reload (generateDelta s stamp freshId).1

/-- The exception classes the repository itself declares. -/
def declaredOmniExceptions : List PyErr :=
  [.notReady, .multipleElementsFound, .elementNotFound, .newDB]

/-- Python attribute lookup: accessing a name that is not a member of the
    object raises `AttributeError`. -/
def pyGetattr (members : List String) (attr : String) : Except PyErr Unit :=
  if attr ∈ members then .ok () else .error .attributeError

/-- The members an `OmniDelegateContext` instance exposes: the four class
    attributes, the two instance attributes set in `__init__`, and the
    methods/properties of the class body. -/
def omniDelegateContextMembers : List String :=
  ["_type", "_parent", "_root", "_path", "el", "manager",
   "new", "parent", "root", "type", "path", "id", "name", "username",
   "children"]

/-- The members an `OmniDelegateManager` instance exposes. -/
def omniDelegateManagerMembers : List String :=
  ["_contexts", "contexts", "sharer", "db", "_load", "_init",
   "_create_context"]

/-- The members an `OmniDb` instance exposes (attributes set in `__init__`
    plus the class body's methods, properties and exception classes). -/
def omniDbMembers : List String :=
  ["path", "username", "_client", "_tail_id", "_main", "_delta", "_changes",
   "root", "delta", "_load", "_merge_delta", "_generate_delta", "_insert",
   "_remove", "_xpath", "_generate_id", "reload", "commit", "insert",
   "remove", "filter", "get", "get_project", "get_folder", "create_root",
   "create_context", "NotReady", "MultipleElementsFound", "ElementNotFound"]

/-- The members an lxml/objectify element exposes (the `_Element` API). -/
def lxmlElementMembers : List String :=
  ["addnext", "addprevious", "append", "attrib", "clear", "extend", "find",
   "findall", "get", "getchildren", "getparent", "getprevious",
   "getroottree", "index", "insert", "items", "iter", "iterancestors",
   "iterchildren", "iterdescendants", "iterfind", "itersiblings", "itertext",
   "keys", "makeelement", "remove", "replace", "set", "sourceline", "tag",
   "tail", "text", "values", "xpath"]

/-- `OmniDb._remove` followed by the rest of `OmniDb.remove`.  `_remove` runs
    `self.root.rmeove(el)`; lxml elements expose `remove`, not `rmeove`, so
    the attribute lookup raises.  The (unreachable) remainder of `remove`
    builds a `delete`-marked copy but appends the original, unmarked `el` to
    `self._changes`. -/
def removeOp (s : OmniDbState) (el : Elem) : Except PyErr OmniDbState := do
  let _ ← pyGetattr lxmlElementMembers "rmeove"
  let delta := { el with op := some "delete" }
  let _ := delta
  .ok { s with changes := s.changes ++ [el] }

/-- A task copy the router would insert and commit into a target user's
    store. -/
structure RoutedCopy where
  targetUser : String
  el : Elem
deriving Repr, DecidableEq

/-- The body of the task loop in `OmniSharer.parse`, for one task of
    `self.db.delta`.  Each line's attribute accesses are looked up in order:
    `context.isroot()` (no such member), then — were they ever reached —
    `context.root`, `self.delegate.pending` (no such member),
    `context.username`, `target.delegate.incoming` (no such member) and
    `target.db.append(el)` (no such member; `OmniDb` only has `insert`).
    `targetUser` and `incomingId` stand for the values
    `context.username` and `target.delegate.incoming[self.username].get('id')`
    would produce; the copy `copy(task)` keeps the task's `op` attribute and
    only re-targets `ctxRef`. -/
def routeTask (targetUser incomingId : String) (task : Elem) :
    Except PyErr RoutedCopy := do
  let _ ← pyGetattr omniDelegateContextMembers "isroot"
  let _ ← pyGetattr omniDelegateContextMembers "root"
  let _ ← pyGetattr omniDelegateManagerMembers "pending"
  let _ ← pyGetattr omniDelegateContextMembers "username"
  let _ ← pyGetattr omniDelegateManagerMembers "incoming"
  let _ ← pyGetattr omniDbMembers "append"
  .ok ⟨targetUser, { task with ctxRef := incomingId }⟩

def parseLoop (targetUser incomingId : String) :
    List Elem → Except PyErr (List RoutedCopy)
  | [] => .ok []
  | t :: rest => do
      let c ← routeTask targetUser incomingId t
      let cs ← parseLoop targetUser incomingId rest
      .ok (c :: cs)

/-- The `try:` block of `OmniSharer.parse`: `self.db.delta.task` raises
    `AttributeError` when the overlay has no `<task>` child (objectify child
    lookup); otherwise the loop body runs per task. -/
def parseBody (targetUser incomingId : String) (overlayTasks : List Elem) :
    Except PyErr (List RoutedCopy) :=
  match overlayTasks with
  | [] => .error .attributeError
  | ts => parseLoop targetUser incomingId ts

/-- `OmniSharer.parse`: the route pass over the overlay's tasks, returning
    the copies inserted and committed into target users' stores.
    `except AttributeError: pass` swallows exactly `AttributeError`. -/
def omniSharerParse (targetUser incomingId : String)
    (overlayTasks : List Elem) : Except PyErr (List RoutedCopy) :=
  match parseBody targetUser incomingId overlayTasks with
  | .error .attributeError => .ok []
  | r => r

/-
  src/gtdt.py — `GTDTDb`, the sqlite ORM.  A table is a list of rows; a row
  has the implicit sqlite `rowid`, the `username` column every GTDTogether
  table carries, and the remaining columns as an association list.
-/

/-- A context element as the genesis archive of a store carries it. -/
def eG : Elem := ⟨0, "context", "cG", none, "GTD Together", ""⟩

/-- A task element carried by the second record of a chain. -/
def t2El : Elem := ⟨1, "task", "t2", none, "task two", "cG"⟩

/-- A task element carried by the third record of a chain. -/
def x3El : Elem := ⟨2, "task", "x3", none, "task three", "cG"⟩

/-- A three-record chain genesis→r2→r3: the genesis archive
    `00000000000000=H0+G1.zip`, then `TS2=G1+R2.zip`, then `TS3=R2+R3.zip`,
    holding the documents `g`, `d2`, `d3`. -/
def chain3 (g d2 d3 : XmlDoc) : List DFile :=
  [⟨"00000000000000", "H0", "G1", some g⟩,
   ⟨"TS2", "G1", "R2", some d2⟩,
   ⟨"TS3", "R2", "R3", some d3⟩]

/-- The chain split the claim describes, composed from this file's own merge
    engine: the base document is the fold of exactly `mains`, the overlay
    document the fold of exactly `deltas`, with nothing else merged into
    either. -/
def loadOutcome (mains deltas : List XmlDoc) (tail : String) :
    Except PyErr LoadResult :=
  match mains with
  | [] => .error .indexError
  | m0 :: rest => do
      let root ← mergeAll m0 rest
      let delta ← mergeAllIntoDelta [] deltas
      .ok ⟨mains, deltas, root, delta, tail⟩

/-- A directory whose chain has a missing link: the genesis archive links to
    `G1`, but no `*=G1+*.zip` exists, while a later record `TS3=R2+R3.zip`
    and the sync cursor `R2` are both present and unreachable. -/
def gapFiles : List DFile :=
  [⟨"00000000000000", "H0", "G1", some [eG]⟩,
   ⟨"TS3", "R2", "R3", some [x3El]⟩]

/-- A directory whose only archive is a genesis record. -/
def genesisFile : DFile := ⟨"00000000000000", "H0", "G1", some [eG]⟩

/-- A directory whose genesis archive is malformed (unreadable contents). -/
def badFiles : List DFile := [⟨"00000000000000", "H0", "G1", none⟩]

/-- The state of an `OmniDb` freshly loaded from `genesisFile` with no
    `.client` cursor file. -/
def sInit : OmniDbState := ⟨[genesisFile], none, [], [eG], [], "G1"⟩

/-- A new task element staged by `insert`. -/
def eNew : Elem := ⟨5, "task", "tN", none, "a staged task", "cG"⟩

/-- `sInit` after `insert(eNew)` and then `reload()`: the tree is rebuilt
    from disk but the staged change survives. -/
def sAfter : OmniDbState := ⟨[genesisFile], none, [eNew], [eG], [], "G1"⟩

/-- A base document holding one task of id `T1`. -/
def baseT1 : XmlDoc := [⟨10, "task", "T1", none, "original", "cG"⟩]

/-- A freshly parsed record element deleting task `T1` (a distinct Python
    object from the element inside `baseT1`). -/
def delT1 : Elem := ⟨11, "task", "T1", some "delete", "original", "cG"⟩

/-- First update of task `T1`. -/
def u1El : Elem := ⟨12, "task", "T1", some "update", "first version", "cG"⟩

/-- Second update of task `T1`. -/
def u2El : Elem := ⟨13, "task", "T1", some "update", "second version", "cG"⟩

/-
  Theorems.
-/

/-- C1: the route pass of `OmniSharer.parse` never copies any task into any
    target user's store.  The loop body's first attribute access,
    `context.isroot()`, raises `AttributeError` (no such member exists, nor do
    `OmniDelegateManager.pending`, `OmniDelegateManager.incoming` or
    `OmniDb.append`), and `parse`'s blanket `except AttributeError: pass`
    swallows it, so a route pass over any overlay — pending tasks included —
    inserts and commits nothing. -/
theorem c1_route_pass_copies_nothing (targetUser incomingId : String)
    (overlayTasks : List Elem) :
    omniSharerParse targetUser incomingId overlayTasks = .ok [] := by
  cases overlayTasks <;> rfl

/-- C2 counterexample: a chain with a missing link between the genesis record
    and the sync cursor (`gapFiles` links genesis to `G1`, no `*=G1+*.zip`
    exists, and the cursor `R2` lies beyond the gap) loads without any error,
    returning a base built from the partial prefix (the genesis record alone)
    and ignoring the on-disk record `TS3=R2+R3.zip`. -/
theorem c2_counterexample :
    loadFull gapFiles (some "R2") = .ok ⟨[[eG]], [], [eG], [], "G1"⟩ ∧
    ∀ e : PyErr, loadFull gapFiles (some "R2") ≠ .error e := by
  refine ⟨rfl, ?_⟩
  intro e h
  rw [show loadFull gapFiles (some "R2") = .ok ⟨[[eG]], [], [eG], [], "G1"⟩
      from rfl] at h
  exact Except.noConfusion h

/-- C2 (amended): when the chain walk discovers a file for the current tail
    whose archive is unreadable or malformed, load raises an error; but a
    missing link does not raise — it silently terminates discovery, and load
    returns a base and overlay built from the prefix of the chain found so
    far (shown on the concrete `gapFiles` directory). -/
theorem c2_malformed_raises_missing_link_truncates (files : List DFile)
    (clientTail : Option String) (fuel : Nat) (tailId : String)
    (mainAcc deltaAcc : List XmlDoc) (inDelta : Bool) (f : DFile)
    (hfind : files.find? (fun g => g.eqField == tailId) = some f)
    (hbad : f.content = none) :
    loadChain files clientTail (fuel + 1) tailId mainAcc deltaAcc inDelta
        = .error .parseError ∧
    loadFull gapFiles (some "R2") = .ok ⟨[[eG]], [], [eG], [], "G1"⟩ := by
  refine ⟨?_, rfl⟩
  rw [loadChain, hfind]
  obtain ⟨st, ea, pb, co⟩ := f
  cases co with
  | none => rfl
  | some d => exact absurd hbad (by simp)

/-- C2 witness: the amended theorem applied to the concrete directory whose
    genesis archive is malformed. -/
theorem c2_witness :
    loadChain badFiles none 1 "H0" [] [] false = .error .parseError ∧
    loadFull gapFiles (some "R2") = .ok ⟨[[eG]], [], [eG], [], "G1"⟩ :=
  c2_malformed_raises_missing_link_truncates badFiles none 0 "H0" [] [] false
    ⟨"00000000000000", "H0", "G1", none⟩ rfl rfl

/-- C3: merging a record holding a Delete operation raises `ValueError` both
    when the base holds an element of the matching id and when it holds none:
    `_merge_delta` runs `base.remove(el)` on the record's own element object,
    which is never a child of `base`, instead of removing the base's element
    of matching id. -/
theorem c3_delete_merge_raises :
    mergeDelta [delT1] baseT1 = .error .valueError ∧
    mergeDelta [delT1] [] = .error .valueError :=
  ⟨rfl, rfl⟩

/-- C4 counterexample: after staging one insert and calling `reload`, the
    staged operation is still in `self._changes`, and the very next commit
    writes it into the new archive — `reload` does not discard un-committed
    staged operations. -/
theorem c4_counterexample :
    reload (insertOp sInit eNew) = .ok sAfter ∧
    sAfter.changes = [eNew] ∧
    ((generateDelta sAfter "20990101000000" "NEWRECID11").2).content
        = some [eNew] :=
  ⟨rfl, rfl, rfl⟩

/-- C4 (amended): `reload` rebuilds `base`/`overlay` from disk but retains
    every staged, un-committed operation (a subsequent commit writes all of
    them), and calling `reload` twice in a row yields the same state as
    calling it once. -/
theorem c4_reload_keeps_changes_and_idempotent (s s2 : OmniDbState)
    (h : reload s = .ok s2) :
    s2.changes = s.changes ∧ s2.files = s.files ∧ reload s2 = .ok s2 := by
  unfold reload at h ⊢
  cases hl : loadFull s.files s.clientTail with
  | error e => rw [hl] at h; exact Except.noConfusion h
  | ok r =>
      rw [hl] at h
      have h2 : ({ s with root := r.root, delta := r.delta, tail := r.tail }
          : OmniDbState) = s2 := Except.ok.inj h
      subst h2
      exact ⟨rfl, rfl, by rw [hl]; rfl⟩

/-- C4 witness: the amended theorem applied to the loaded store `sInit` with
    one staged insert. -/
theorem c4_witness :
    sAfter.changes = (insertOp sInit eNew).changes ∧
    sAfter.files = (insertOp sInit eNew).files ∧
    reload sAfter = .ok sAfter :=
  c4_reload_keeps_changes_and_idempotent (insertOp sInit eNew) sAfter rfl

/-- C5: `OmniDb.remove` raises `AttributeError` on every input: `_remove`
    runs `self.root.rmeove(el)` and lxml elements expose `remove`, not
    `rmeove`.  The in-memory base is never modified and no tombstone is
    staged (and the unreachable remainder of `remove` would stage the
    unmarked original, not the Delete-marked copy). -/
theorem c5_remove_raises (s : OmniDbState) (el : Elem) :
    removeOp s el = .error .attributeError :=
  rfl

/-- C6 counterexample: committing on a store whose chain head is `G1` with
    freshly generated record id `NEWRECID11` writes the archive
    `20990101000000=G1+NEWRECID11.zip`: the field after `=` holds the prior
    tail id `G1` and the field after `+` holds the new record id — not the
    other way round, as the claim states. -/
theorem c6_counterexample :
    (generateDelta sAfter "20990101000000" "NEWRECID11").2.eqField = "G1" ∧
    (generateDelta sAfter "20990101000000" "NEWRECID11").2.plusField
        = "NEWRECID11" ∧
    dfileName (generateDelta sAfter "20990101000000" "NEWRECID11").2
        = "20990101000000=G1+NEWRECID11.zip" ∧
    ("G1" : String) ≠ "NEWRECID11" :=
  ⟨rfl, rfl, rfl, by decide⟩

/-- C6 (amended): every archive written by commit has the freshly generated
    record id, a prior tail equal to the chain head at commit time, and a
    filename `<timestamp>=<priorTailId>+<recordId>.zip` — the prior tail id
    appears in the field after `=` and the new record id in the field after
    `+`; the archive holds exactly the staged operations, and the store's
    head advances to the new record id. -/
theorem c6_archive_fields (s : OmniDbState) (stamp freshId : String) :
    (generateDelta s stamp freshId).2
        = ⟨stamp, s.tail, freshId, some s.changes⟩ ∧
    dfileName (generateDelta s stamp freshId).2
        = stamp ++ "=" ++ s.tail ++ "+" ++ freshId ++ ".zip" ∧
    (generateDelta s stamp freshId).1.tail = freshId ∧
    (generateDelta s stamp freshId).1.changes = [] :=
  ⟨rfl, rfl, rfl, rfl⟩

/-- C7: for every chain of three records genesis→r2→r3 with the sync cursor
    recording r2, load places exactly the records genesis through r2 in the
    base document and exactly r3 in the overlay document (`loadOutcome`
    composes precisely that split, and nothing else reaches either document:
    the final continuity merge of `_load` visits no elements because the
    overlay document's root is unnamespaced). -/
theorem c7_chain_split (g d2 d3 : XmlDoc) :
    loadFull (chain3 g d2 d3) (some "R2") = loadOutcome [g, d2] [d3] "R3" :=
  rfl

/-- C10: with no genesis archive `00000000000000=*.zip` on disk,
    `OmniClient.head_id` indexes an empty glob result, so `_load` — and with
    it construction, `reload`, and `commit` — raises a bare `IndexError`,
    which is none of the exception types the repository declares. -/
theorem c10_no_genesis_index_error (s : OmniDbState) (stamp freshId : String)
    (hng : ∀ f ∈ s.files, f.stamp ≠ "00000000000000")
    (hstamp : stamp ≠ "00000000000000") :
    loadFull s.files s.clientTail = .error .indexError ∧
    reload s = .error .indexError ∧
    commitOp s stamp freshId = .error .indexError ∧
    PyErr.indexError ∉ declaredOmniExceptions := by
  have hfind : s.files.find? (fun f => f.stamp == "00000000000000") = none := by
    rw [List.find?_eq_none]
    intro f hf
    simpa using hng f hf
  have hload : loadFull s.files s.clientTail = .error .indexError := by
    rw [loadFull, headId, hfind]; rfl
  have hfind2 : (s.files ++ [(⟨stamp, s.tail, freshId, some s.changes⟩ : DFile)]).find?
      (fun f => f.stamp == "00000000000000") = none := by
    rw [List.find?_eq_none]
    intro f hf
    rcases List.mem_append.mp hf with hf1 | hf2
    · simpa using hng f hf1
    · rcases List.mem_singleton.mp hf2 with rfl
      simpa using hstamp
  have hcommit : commitOp s stamp freshId = .error .indexError := by
    rw [commitOp, reload, generateDelta, loadFull, headId]
    rw [hfind2]; rfl
  refine ⟨hload, ?_, hcommit, by decide⟩
  rw [reload, hload]; rfl

/-- Merging a single-element record holding an Update replaces the first
    element of matching id and appends the op-stripped element. -/
theorem mergeDelta_update (e : Elem) (base : XmlDoc)
    (hop : e.op = some "update")
    (htyp : e.typ = "context" ∨ e.typ = "task") :
    mergeDelta [e] base
        = .ok (removeFirstById e.typ e.id base ++ [stripOp e]) := by
  rcases htyp with h | h <;>
    · simp [mergeDelta, mergeElems, mergeOne, hop, h, List.filter]
      rfl

theorem countById_cons (typ id : String) (x : Elem) (xs : XmlDoc) :
    countById typ id (x :: xs)
        = (if matchesId typ id x then 1 else 0) + countById typ id xs := by
  by_cases hx : matchesId typ id x = true
  · simp [countById, List.filter_cons, hx, Nat.add_comm]
  · simp [countById, List.filter_cons, hx]

theorem countById_append (typ id : String) (xs ys : XmlDoc) :
    countById typ id (xs ++ ys)
        = countById typ id xs + countById typ id ys := by
  simp [countById, List.filter_append]

theorem countById_removeFirst (typ id : String) (d : XmlDoc)
    (h : countById typ id d ≤ 1) :
    countById typ id (removeFirstById typ id d) = 0 := by
  induction d with
  | nil => rfl
  | cons x xs ih =>
      rw [countById_cons] at h
      by_cases hx : matchesId typ id x = true
      · rw [removeFirstById, if_pos hx]
        rw [if_pos hx] at h
        omega
      · rw [removeFirstById, if_neg hx, countById_cons, if_neg hx]
        rw [if_neg hx] at h
        have := ih (by omega)
        omega

theorem removeFirst_append_match (typ id : String) (xs : XmlDoc) (y : Elem)
    (hxs : countById typ id xs = 0) (hy : matchesId typ id y = true) :
    removeFirstById typ id (xs ++ [y]) = xs := by
  induction xs with
  | nil => simp [removeFirstById, hy]
  | cons x rest ih =>
      rw [countById_cons] at hxs
      have hx : ¬ matchesId typ id x = true := by
        intro hmx
        rw [if_pos hmx] at hxs
        omega
      rw [if_neg hx] at hxs
      rw [List.cons_append, removeFirstById, if_neg hx, ih (by omega)]

theorem filter_eq_nil_of_count_zero (typ id : String) (xs : XmlDoc)
    (h : countById typ id xs = 0) : xs.filter (matchesId typ id) = [] :=
  List.length_eq_zero.mp h

/-- C8: for every base document holding at most one element of a given id
    (the data model's id-uniqueness invariant), merging two Update records for
    that id in sequence leaves exactly one element of that id in the base,
    holding the second update's values (op marker stripped), and merging the
    identical second update again changes nothing. -/
theorem c8_double_update_last_wins (base : XmlDoc) (e1 e2 : Elem)
    (h1 : e1.op = some "update") (h2 : e2.op = some "update")
    (htyp : e1.typ = "context" ∨ e1.typ = "task")
    (ht : e2.typ = e1.typ) (hi : e2.id = e1.id)
    (hbase : countById e1.typ e1.id base ≤ 1) :
    ∃ b1 b2,
      mergeDelta [e1] base = .ok b1 ∧
      mergeDelta [e2] b1 = .ok b2 ∧
      countById e1.typ e1.id b2 = 1 ∧
      b2.filter (matchesId e1.typ e1.id) = [stripOp e2] ∧
      mergeDelta [e2] b2 = .ok b2 := by
  have htyp2 : e2.typ = "context" ∨ e2.typ = "task" := by rw [ht]; exact htyp
  have hRcount : countById e1.typ e1.id
      (removeFirstById e1.typ e1.id base) = 0 :=
    countById_removeFirst _ _ _ hbase
  have hm1 : matchesId e1.typ e1.id (stripOp e1) = true := by
    simp [matchesId, stripOp]
  have hm2 : matchesId e1.typ e1.id (stripOp e2) = true := by
    simp [matchesId, stripOp, ht, hi]
  refine ⟨removeFirstById e1.typ e1.id base ++ [stripOp e1],
          removeFirstById e1.typ e1.id base ++ [stripOp e2],
          mergeDelta_update e1 base h1 htyp, ?_, ?_, ?_, ?_⟩
  · rw [mergeDelta_update e2 _ h2 htyp2, ht, hi,
        removeFirst_append_match _ _ _ _ hRcount hm1]
  · rw [countById_append, hRcount, countById_cons, if_pos hm2]
    rfl
  · rw [List.filter_append, filter_eq_nil_of_count_zero _ _ _ hRcount]
    simp [hm2]
  · rw [mergeDelta_update e2 _ h2 htyp2, ht, hi,
        removeFirst_append_match _ _ _ _ hRcount hm2]

/-- C8 witness: two updates of task `T1` merged into an empty base. -/
theorem c8_witness :
    ∃ b1 b2,
      mergeDelta [u1El] [] = .ok b1 ∧
      mergeDelta [u2El] b1 = .ok b2 ∧
      countById "task" "T1" b2 = 1 ∧
      b2.filter (matchesId "task" "T1") = [stripOp u2El] ∧
      mergeDelta [u2El] b2 = .ok b2 :=
  c8_double_update_last_wins [] u1El u2El rfl rfl (Or.inr rfl) rfl rfl
    (by decide)

/-- C10 witness: an empty database directory. -/
theorem c10_witness :
    loadFull ([] : List DFile) none = .error .indexError ∧
    reload ⟨[], none, [], [], [], "T0"⟩ = .error .indexError ∧
    commitOp ⟨[], none, [], [], [], "T0"⟩ "20990101000000" "NEWRECID11"
        = .error .indexError ∧
    PyErr.indexError ∉ declaredOmniExceptions :=
  c10_no_genesis_index_error ⟨[], none, [], [], [], "T0"⟩
    "20990101000000" "NEWRECID11" (by simp) (by decide)

end GTDT
